import Mathlib

/-!
Verification of the topoxx mapping tool's core logic: coordinate-zone
reprojection gating, scale/resolution conversion, the raster-export surface
resize/restore sequence, world-file generation, tabular point import, and the
export base-filename convention.  Every definition below is a shallow
embedding of a function of the source (files `src/unnamed/part_000`,
`src/unnamed/part_001`, `src/topoma2026-main/components/MapComponent.tsx`),
with JavaScript numbers modelled as `ℚ` where the code is exact arithmetic on
decimals and as `ℝ` where transcendental functions occur.
-/

/-- Cell of a spreadsheet row: the XLSX reader yields either a number or a
string for each cell (`sheet_to_json` with `defval: ""`). -/
inductive CellValue where
  | num (q : ℚ)
  | str (s : String)
deriving DecidableEq

/-- A spreadsheet row: association list from column name to cell value,
modelling the JS row object (`Object.keys` order = list order). -/
abbrev Row := List (String × CellValue)

/-- Characters matched by the JavaScript regex `\s` (plus U+00A0, which the
source also strips explicitly). -/
def isJsSpace (c : Char) : Bool :=
  c = ' ' || c = '\t' || c = '\n' || c = '\r' || c = '\x0b' || c = '\x0c' || c = ' '

/-- Remove every whitespace character, modelling `.replace(/\s/g, '')` (and
the source's additional `.replace(/ /g, '')`); also what
`.replace(/\s+/g, '')` does to the scale label. -/
def removeAllWs (s : String) : String :=
  String.mk (s.data.filter (fun c => !(isJsSpace c)))

/-- Replace only the first comma by a dot: JavaScript `.replace(',', '.')`
with a string pattern substitutes the first occurrence only. -/
def replaceFirstComma : List Char → List Char
  | [] => []
  | c :: r => if c = ',' then '.' :: r else c :: replaceFirstComma r

/-- The string cleanup applied by `parseCoordinateValue` in
`src/unnamed/part_000` lines 311: trim, strip all whitespace and
non-breaking spaces, comma decimal separator to dot. -/
def cleanNumString (s : String) : String :=
  String.mk (replaceFirstComma (removeAllWs s).data)

/-- Numeric value of a list of decimal digit characters. -/
def digitsVal (cs : List Char) : ℕ :=
  cs.foldl (fun a c => a * 10 + (c.toNat - 48)) 0

/-- Longest prefix of digits containing at most one dot, as consumed by
JavaScript `parseFloat` after the optional sign (exponents do not occur in
the cleaned coordinate strings this feeds on). -/
def numPrefix : List Char → Bool → List Char
  | [], _ => []
  | c :: r, seenDot =>
    if c.isDigit then c :: numPrefix r seenDot
    else if c = '.' && !seenDot then c :: numPrefix r true
    else []

/-- Rational value of a sign-free numeric token `intpart[.fracpart]`. -/
def ratOfToken (cs : List Char) : ℚ :=
  let ip := cs.takeWhile (fun c => c ≠ '.')
  let fp := (cs.dropWhile (fun c => c ≠ '.')).drop 1
  (digitsVal ip : ℚ) + (digitsVal fp : ℚ) / 10 ^ fp.length

/-- Model of JavaScript `parseFloat` on a cleaned coordinate string: optional
sign, then the longest digits-and-one-dot prefix; `none` models `NaN` (no
digit consumed). -/
def parseJSFloat (s : String) : Option ℚ :=
  let (sign, cs) : ℚ × List Char :=
    match s.data with
    | '-' :: r => (-1, r)
    | '+' :: r => (1, r)
    | r => (1, r)
  let tok := numPrefix cs false
  if tok.any (fun c => c.isDigit) then some (sign * ratOfToken tok) else none

/-- `parseCoordinateValue` from `src/unnamed/part_000` lines 308-313: numbers
pass through; falsy values (empty string) give `NaN` (`none`); other strings
are cleaned and parsed. -/
def parseCoordinateValue : CellValue → Option ℚ
  | .num q => some q
  | .str s => if s = "" then none else parseJSFloat (cleanNumString s)

/-- ASCII lowercasing of one character, for the `/i` regex flags. -/
def lowerChar (c : Char) : Char :=
  if c.toNat ≥ 65 && c.toNat ≤ 90 then Char.ofNat (c.toNat + 32) else c

/-- ASCII lowercasing of a column name. -/
def lowerStr (s : String) : String := String.mk (s.data.map lowerChar)

/-- Column-name test for X/easting, the regex
`/^(x|lng|lon|longitude|easting)$/i` of `processExcelFile`. -/
def isXKey (k : String) : Bool :=
  ["x", "lng", "lon", "longitude", "easting"].contains (lowerStr k)

/-- Column-name test for Y/northing, the regex
`/^(y|lat|latitude|northing)$/i`. -/
def isYKey (k : String) : Bool :=
  ["y", "lat", "latitude", "northing"].contains (lowerStr k)

/-- Column-name test for the label column, the regex
`/^(id|name|nom|label|point)$/i`. -/
def isLabelKey (k : String) : Bool :=
  ["id", "name", "nom", "label", "point"].contains (lowerStr k)

/-- First column of a row whose name satisfies the predicate, modelling
`Object.keys(row).find(...)` followed by `row[key]`. -/
def findKey (p : String → Bool) (row : Row) : Option (String × CellValue) :=
  row.find? (fun kv => p kv.1)

/-- String rendering of a cell, for `String(row[labelKey])`. -/
def cellString : CellValue → String
  | .num q => toString q
  | .str s => s

/-- `projectFromZone` from `src/unnamed/part_001` lines 44-63.  The numeric
zone-to-WGS84 transform performed by the external proj4 library is the
parameter `T`; `T (x, y) = none` models proj4 throwing or producing `NaN`
(the code's `catch` and `!isNaN` guards).  For `EPSG:4326` the input is
returned unchanged inside the ±90/±180 bounds; for projected zones the
result is kept only inside the validity envelope `20 ≤ lat ≤ 38`,
`-19 ≤ lng ≤ 1`. -/
def projectFromZone (T : ℚ × ℚ → Option (ℚ × ℚ)) (x y : ℚ) (zoneCode : String) :
    Option (ℚ × ℚ) :=
  if zoneCode = "EPSG:4326" then
    if |y| ≤ 90 ∧ |x| ≤ 180 then some (x, y) else none
  else
    match T (x, y) with
    | none => none
    | some (lng, lat) =>
      if 20 ≤ lat ∧ lat ≤ 38 ∧ -19 ≤ lng ∧ lng ≤ 1 then some (lng, lat) else none

/-- Point produced for one spreadsheet row by the loop body of
`processExcelFile` (`src/unnamed/part_000` lines 331-350): find X and Y
columns, parse both values, reproject; `none` means the row is skipped. -/
def rowPoint (T : ℚ × ℚ → Option (ℚ × ℚ)) (zone : String) (row : Row) :
    Option ((ℚ × ℚ) × Option String) :=
  match findKey isXKey row, findKey isYKey row with
  | some xkv, some ykv =>
    match parseCoordinateValue xkv.2, parseCoordinateValue ykv.2 with
    | some rawX, some rawY =>
      match projectFromZone T rawX rawY zone with
      | some p => some (p, (findKey isLabelKey row).map (fun kv => cellString kv.2))
      | none => none
    | _, _ => none
  | _, _ => none

/-- The `validPoints` list accumulated by `processExcelFile`: rows whose
coordinates parse and reproject; all other rows are skipped, and the
traversal itself never fails (it is a total fold). -/
def excelValidPoints (T : ℚ × ℚ → Option (ℚ × ℚ)) (zone : String) (rows : List Row) :
    List ((ℚ × ℚ) × Option String) :=
  rows.filterMap (rowPoint T zone)

/-- The `EXPORT_SCALES` table of `src/unnamed/part_000` lines 59-82:
human-readable label and scale denominator value. -/
def EXPORT_SCALES : List (String × ℤ) :=
  [("10000 km", 1000000000), ("5000 km", 500000000), ("2000 km", 200000000),
   ("1000 km", 100000000), ("500 km", 50000000), ("200 km", 20000000),
   ("100 km", 10000000), ("50 km", 5000000), ("25 km", 2500000),
   ("20 km", 2000000), ("10 km", 1000000), ("5 km", 500000),
   ("2 km", 200000), ("1 km", 100000), ("500 m", 50000), ("250 m", 25000),
   ("200 m", 20000), ("100 m", 10000), ("50 m", 5000), ("20 m", 2000),
   ("10 m", 1000), ("5 m", 500)]

/-- Left-pad a string with a character up to a given length, modelling
JavaScript `padStart`. -/
def padStart (s : String) (n : ℕ) (c : Char) : String :=
  String.mk (List.replicate (n - s.data.length) c) ++ s

/-- The scale component of the export base name (`startClipping` lines
432-433): label of the matching `EXPORT_SCALES` entry with all whitespace
removed, or the raw number if no entry matches. -/
def scaleStr (currentScale : ℤ) : String :=
  match EXPORT_SCALES.find? (fun p => p.2 == currentScale) with
  | some p => removeAllWs p.1
  | none => toString currentScale

/-- The coordinate component of the export base name (`startClipping` line
431): lowercase hemisphere letters, floored absolute degrees, longitude
zero-padded to 3 digits. -/
def coordStr (lat lng : ℚ) : String :=
  (if 0 ≤ lat then "n" else "s") ++ toString ⌊|lat|⌋ ++ "_" ++
    (if 0 ≤ lng then "e" else "w") ++ padStart (toString ⌊|lng|⌋) 3 '0'

/-- The date component `MM.YY` (`startClipping` line 428); `monthIndex0` is
the zero-based month of `Date.getMonth()`. -/
def dateStr (monthIndex0 year : ℕ) : String :=
  padStart (toString (monthIndex0 + 1)) 2 '0' ++ "." ++
    String.mk ((toString year).data.drop ((toString year).data.length - 2))

/-- The export base filename (`startClipping` line 435):
`{location}_{scale}_{coord}_{MM.YY}_topoma`. -/
def baseName (locationName : String) (currentScale : ℤ) (lat lng : ℚ)
    (monthIndex0 year : ℕ) : String :=
  locationName ++ "_" ++ scaleStr currentScale ++ "_" ++ coordStr lat lng ++ "_" ++
    dateStr monthIndex0 year ++ "_topoma"

/-- Spherical-Mercator radius of the display CRS `EPSG:3857`
(`+a=6378137 +b=6378137` in `src/unnamed/part_001` line 4). -/
def R3857 : ℝ := 6378137

/-- Longitude in degrees of an `EPSG:3857` x-coordinate, the proj4 inverse
spherical Mercator used by `proj4('EPSG:3857', 'EPSG:4326', ...)`. -/
noncomputable def lonOf3857 (x : ℝ) : ℝ := x / R3857 * (180 / Real.pi)

/-- Latitude in degrees of an `EPSG:3857` y-coordinate, the proj4 inverse
spherical Mercator: `lat = π/2 − 2·atan(exp(−y/a))`, converted to degrees. -/
noncomputable def latOf3857 (y : ℝ) : ℝ :=
  (Real.pi / 2 - 2 * Real.arctan (Real.exp (-(y / R3857)))) * (180 / Real.pi)

/-- `getResolutionFromScale` from `src/unnamed/part_001` lines 83-86:
`(scaleValue * 0.000264583333) / Math.cos(lat * Math.PI / 180)`, a total
function with no latitude validation. -/
noncomputable def getResolutionFromScale (scaleValue lat : ℝ) : ℝ :=
  scaleValue * 0.000264583333 / Real.cos (lat * Real.pi / 180)

/-- `calculateScale` from `src/unnamed/part_001` lines 76-80 (the numeric
value before the final `toFixed(0)` rendering). -/
noncomputable def calculateScaleVal (resolution lat : ℝ) : ℝ :=
  resolution * Real.cos (lat * Real.pi / 180) / 0.000264583333

/-- Spec-worded variant of the scale-to-resolution conversion, for
comparison only: the spec says the conversion "fails with
`InvalidLatitudeError` outside (−89.5°, 89.5°)", so this variant returns
`none` there.  The source function `getResolutionFromScale` has no such
check. -/
noncomputable def getResolutionFromScaleSpec (scaleValue lat : ℝ) : Option ℝ :=
  if -89.5 < lat ∧ lat < 89.5 then
    some (scaleValue * 0.000264583333 / Real.cos (lat * Real.pi / 180))
  else none

/-- Display-CRS bounding box `[minX, minY, maxX, maxY]` as computed over the
target features at the start of `getMapCanvas`. -/
structure Extent4 where
  minX : ℝ
  minY : ℝ
  maxX : ℝ
  maxY : ℝ

/-- Interactive map surface state: pixel size, view resolution, view center
(the three values saved as `originalSize` / `originalResolution` /
`originalCenter` in `getMapCanvas`). -/
structure ViewState where
  size : ℤ × ℤ
  resolution : ℝ
  center : ℝ × ℝ

/-- Center of the export extent (`getMapCanvas` line 550). -/
noncomputable def exportCenter (e : Extent4) : ℝ × ℝ :=
  ((e.minX + e.maxX) / 2, (e.minY + e.maxY) / 2)

/-- Export ground resolution (`getMapCanvas` line 551): scale converted at
the latitude of the extent center. -/
noncomputable def exportRes (e : Extent4) (targetScale : ℝ) : ℝ :=
  getResolutionFromScale targetScale (latOf3857 (exportCenter e).2)

/-- Export pixel width `Math.ceil((extent[2]-extent[0])/res)`
(`getMapCanvas` line 552). -/
noncomputable def exportWidth (e : Extent4) (targetScale : ℝ) : ℤ :=
  ⌈(e.maxX - e.minX) / exportRes e targetScale⌉

/-- Export pixel height `Math.ceil((extent[3]-extent[1])/res)`
(`getMapCanvas` line 553). -/
noncomputable def exportHeight (e : Extent4) (targetScale : ℝ) : ℤ :=
  ⌈(e.maxY - e.minY) / exportRes e targetScale⌉

/-- Observable outcome of one run of `getMapCanvas`
(`MapComponent.tsx` lines 543-591). -/
structure RunResult where
  width : ℤ
  height : ℤ
  resizedTo : Option (ℤ × ℤ)
  finalState : ViewState
  layersVisible : Bool
  result : Option (ℤ × ℤ × Extent4)

/-- State-passing embedding of `getMapCanvas` after the target features have
been collected (nonempty, with joint extent `e`).  The code computes
`res`/`width`/`height`, hides the vector layers, and calls
`setSize([width, height])`, `setResolution(res)`, `setCenter(center)`
unconditionally — there is no check of the computed dimensions.  Inside the
`rendercomplete` callback a `try` block captures and composites the layer
canvases; `captureOk = true` models it completing, after which the layers
are shown again and the original size/resolution/center are restored before
`resolve`.  `captureOk = false` models an exception inside the `try` (or a
missing 2d context): the `catch` only logs and resolves `null`, so the
surface keeps the export size/resolution/center and the drawing layers stay
hidden. -/
noncomputable def getMapCanvasRun (s0 : ViewState) (e : Extent4) (targetScale : ℝ)
    (captureOk : Bool) : RunResult :=
  let w := exportWidth e targetScale
  let h := exportHeight e targetScale
  if captureOk then
    { width := w, height := h, resizedTo := some (w, h),
      finalState := s0, layersVisible := true, result := some (w, h, e) }
  else
    { width := w, height := h, resizedTo := some (w, h),
      finalState :=
        { size := (w, h), resolution := exportRes e targetScale,
          center := exportCenter e },
      layersVisible := false, result := none }

/-- First world-file value (`startClipping` lines 410-412): per-pixel
longitude step in degrees, `(maxCorner[0] − minCorner[0]) / canvas.width`
after converting the two extent corners to `EPSG:4326`. -/
noncomputable def worldFileA (e : Extent4) (width : ℕ) : ℝ :=
  (lonOf3857 e.maxX - lonOf3857 e.minX) / width

/-- Fourth world-file value (`startClipping` lines 413, 420): the negated
per-pixel latitude step `-(maxCorner[1] − minCorner[1]) / canvas.height`. -/
noncomputable def worldFileD (e : Extent4) (height : ℕ) : ℝ :=
  -((latOf3857 e.maxY - latOf3857 e.minY) / height)

/-- The six world-file parameters in file order (`startClipping` lines
416-423): x-scale, y-rotation, x-rotation, y-scale, top-left longitude,
top-left latitude. -/
noncomputable def worldFileValues (e : Extent4) (width height : ℕ) : List ℝ :=
  [worldFileA e width, 0, 0, worldFileD e height, lonOf3857 e.minX, latOf3857 e.maxY]

/-- Exactly `k` decimal digits of `m` (little-endian value, big-endian
string), left-padded with zeros: the fractional part of a `toFixed`
rendering. -/
def digitsFixed (k m : ℕ) : String :=
  String.mk ((List.range k).map (fun i => Nat.digitChar (m / 10 ^ (k - 1 - i) % 10)))

/-- Magnitude of a number scaled to 14 decimals and rounded half-up, as
JavaScript `toFixed(14)` does. -/
def toFixedNat (q : ℚ) : ℕ := (⌊|q| * 10 ^ 14 + 1 / 2⌋).toNat

/-- Sign and integer part of a `toFixed(14)` rendering. -/
def toFixedPre (q : ℚ) : String :=
  (if q < 0 then "-" else "") ++ toString (toFixedNat q / 10 ^ 14)

/-- Fractional part (14 digits) of a `toFixed(14)` rendering. -/
def toFixedFrac (q : ℚ) : String := digitsFixed 14 (toFixedNat q % 10 ^ 14)

/-- JavaScript `Number.prototype.toFixed(14)` on an exactly-represented
decimal: sign, integer digits, `.`, then exactly 14 fraction digits. -/
def toFixed14 (q : ℚ) : String := toFixedPre q ++ "." ++ toFixedFrac q

/-- The `tfw` line array of `startClipping` lines 416-423: x-scale,
the two literal zero rotation strings, y-scale, top-left longitude,
top-left latitude, each numeric entry rendered by `toFixed(14)`. -/
def tfwLines (a d e f : ℚ) : List String :=
  [toFixed14 a, "0.00000000000000", "0.00000000000000", toFixed14 d,
   toFixed14 e, toFixed14 f]

/-- The world-file text: the line array joined with `'\n'`
(`startClipping` line 423). -/
def tfwContent (a d e f : ℚ) : String :=
  String.intercalate "\n" (tfwLines a d e f)


/-- Concrete export extent used for the oversized-export scenarios:
10^10 m wide, 10 m tall, vertically centered on the equator so the
center latitude is 0. -/
def demoExtent : Extent4 := ⟨0, -5, 10 ^ 10, 5⟩

/-- Concrete original surface state (arbitrary interactive size 600×400). -/
def demoState : ViewState := ⟨(600, 400), 100, (0, 0)⟩

theorem latOf3857_zero : latOf3857 0 = 0 := by
  unfold latOf3857
  rw [show -((0 : ℝ) / R3857) = 0 by norm_num, Real.exp_zero, Real.arctan_one]
  ring

theorem latOf3857_lt {y1 y2 : ℝ} (h : y1 < y2) :
    latOf3857 y1 < latOf3857 y2 := by
  unfold latOf3857
  have hR : (0 : ℝ) < R3857 := by norm_num [R3857]
  have h1 : -(y2 / R3857) < -(y1 / R3857) := by
    have hd : y1 / R3857 < y2 / R3857 := div_lt_div_of_pos_right h hR
    linarith
  have h2 : Real.exp (-(y2 / R3857)) < Real.exp (-(y1 / R3857)) :=
    Real.exp_lt_exp.mpr h1
  have h3 : Real.arctan (Real.exp (-(y2 / R3857))) <
      Real.arctan (Real.exp (-(y1 / R3857))) := Real.arctan_strictMono h2
  have h4 : (0 : ℝ) < 180 / Real.pi := by positivity
  have h5 : Real.pi / 2 - 2 * Real.arctan (Real.exp (-(y1 / R3857))) <
      Real.pi / 2 - 2 * Real.arctan (Real.exp (-(y2 / R3857))) := by linarith
  exact mul_lt_mul_of_pos_right h5 h4

theorem cos_deg_pos {lat : ℝ} (h1 : -90 < lat) (h2 : lat < 90) :
    0 < Real.cos (lat * Real.pi / 180) := by
  have hpi := Real.pi_pos
  apply Real.cos_pos_of_mem_Ioo
  constructor
  · show -(Real.pi / 2) < lat * Real.pi / 180
    nlinarith
  · show lat * Real.pi / 180 < Real.pi / 2
    nlinarith

theorem exportRes_demo :
    exportRes demoExtent 1000000 = 1000000 * 0.000264583333 := by
  have hc : (exportCenter demoExtent).2 = 0 := by
    simp [exportCenter, demoExtent]
  unfold exportRes
  rw [hc, latOf3857_zero]
  unfold getResolutionFromScale
  rw [show (0 : ℝ) * Real.pi / 180 = 0 by ring, Real.cos_zero, div_one]

theorem demo_width_gt : 16384 < exportWidth demoExtent 1000000 := by
  unfold exportWidth
  rw [Int.lt_ceil]
  rw [exportRes_demo]
  show (16384 : ℝ) < (demoExtent.maxX - demoExtent.minX) / (1000000 * 0.000264583333)
  rw [show demoExtent.maxX = 10 ^ 10 from rfl, show demoExtent.minX = 0 from rfl]
  rw [lt_div_iff₀ (by norm_num)]
  norm_num

/-- C1 counterexample: a concrete export whose computed pixel width exceeds
16384 is not rejected — `getMapCanvas` resizes the surface to the oversized
dimensions and the capture succeeds, contradicting the claim that such
exports fail before any surface resize. -/
theorem c1_oversize_counterexample :
    16384 < (getMapCanvasRun demoState demoExtent 1000000 true).width ∧
    (getMapCanvasRun demoState demoExtent 1000000 true).resizedTo ≠ none ∧
    (getMapCanvasRun demoState demoExtent 1000000 true).result ≠ none := by
  refine ⟨?_, by simp [getMapCanvasRun], by simp [getMapCanvasRun]⟩
  simpa [getMapCanvasRun] using demo_width_gt

/-- C1 (amended): the export pipeline enforces no pixel-dimension ceiling:
even when the computed width or height exceeds 16384 px, the surface is
resized to exactly those dimensions and, when capture succeeds, the export
completes normally. -/
theorem c1_no_dimension_ceiling (s0 : ViewState) (e : Extent4) (scale : ℝ)
    (h : 16384 < exportWidth e scale ∨ 16384 < exportHeight e scale) :
    (getMapCanvasRun s0 e scale true).resizedTo =
      some (exportWidth e scale, exportHeight e scale) ∧
    (getMapCanvasRun s0 e scale true).result =
      some (exportWidth e scale, exportHeight e scale, e) := by
  exact ⟨by simp [getMapCanvasRun], by simp [getMapCanvasRun]⟩

/-- Witness for `c1_no_dimension_ceiling` at the concrete oversized
export. -/
theorem c1_no_dimension_ceiling_witness :
    (getMapCanvasRun demoState demoExtent 1000000 true).resizedTo =
      some (exportWidth demoExtent 1000000, exportHeight demoExtent 1000000) ∧
    (getMapCanvasRun demoState demoExtent 1000000 true).result =
      some (exportWidth demoExtent 1000000, exportHeight demoExtent 1000000, demoExtent) :=
  c1_no_dimension_ceiling demoState demoExtent 1000000 (Or.inl demo_width_gt)

/-- C4: when an exception is thrown during capture/compositing (the `catch`
branch of `getMapCanvas`), the operation resolves `null` while the surface
is left at the oversized export size — the original size, resolution and
center are NOT restored and the drawing layers stay hidden, contradicting
the guaranteed-restoration claim (the success path does restore them, so
restoration is clearly the intent and the `catch` path is a slip). -/
theorem c4_exception_skips_restore :
    (getMapCanvasRun demoState demoExtent 1000000 false).result = none ∧
    (getMapCanvasRun demoState demoExtent 1000000 false).layersVisible = false ∧
    (getMapCanvasRun demoState demoExtent 1000000 false).finalState.size ≠
      demoState.size := by
  refine ⟨by simp [getMapCanvasRun], by simp [getMapCanvasRun], ?_⟩
  have hsz : (getMapCanvasRun demoState demoExtent 1000000 false).finalState.size =
      (exportWidth demoExtent 1000000, exportHeight demoExtent 1000000) := by
    simp [getMapCanvasRun]
  rw [hsz, show demoState.size = (600, 400) from rfl]
  intro hne
  have h1 : exportWidth demoExtent 1000000 = 600 := congrArg Prod.fst hne
  have h2 := demo_width_gt
  rw [h1] at h2
  norm_num at h2

/-- C5 counterexample: at latitude 89.6°, outside the claimed validity
interval (−89.5°, 89.5°), the source conversion does not fail: it returns a
positive resolution, while the spec-worded variant demands failure — the
source has no latitude check and no `InvalidLatitudeError` exists anywhere
in it. -/
theorem c5_no_latitude_failure_counterexample :
    getResolutionFromScaleSpec 1000 89.6 = none ∧
    0 < getResolutionFromScale 1000 89.6 := by
  constructor
  · unfold getResolutionFromScaleSpec
    rw [if_neg]
    rintro ⟨-, h⟩
    norm_num at h
  · unfold getResolutionFromScale
    apply div_pos (by norm_num)
    exact cos_deg_pos (by norm_num) (by norm_num)

/-- C5 (amended): the scale-to-resolution conversion performs no latitude
validation and never fails: even for latitudes outside (−89.5°, 89.5°) — for
instance anywhere in (89.5°, 90°) — it returns an ordinary positive
resolution for a positive scale. -/
theorem c5_conversion_total (scaleValue lat : ℝ) (hs : 0 < scaleValue)
    (h1 : 89.5 < lat) (h2 : lat < 90) :
    0 < getResolutionFromScale scaleValue lat := by
  unfold getResolutionFromScale
  apply div_pos (by positivity)
  exact cos_deg_pos (by linarith) h2

/-- Witness for `c5_conversion_total` at scale 1000, latitude 89.6°. -/
theorem c5_conversion_total_witness : 0 < getResolutionFromScale 1000 89.6 :=
  c5_conversion_total 1000 89.6 (by norm_num) (by norm_num) (by norm_num)

/-- The 1000 m × 1000 m display-CRS extent of the world-file scenario,
anchored at the equator origin. -/
def sqExtent : Extent4 := ⟨0, 0, 1000, 1000⟩

theorem worldFileA_sq : worldFileA sqExtent 100 = 1800 / (6378137 * Real.pi) := by
  unfold worldFileA lonOf3857
  rw [show sqExtent.maxX = 1000 from rfl, show sqExtent.minX = 0 from rfl]
  rw [show R3857 = 6378137 from rfl]
  have hpi := Real.pi_ne_zero
  field_simp
  ring

theorem wfa_bounds :
    0.000089 < worldFileA sqExtent 100 ∧ worldFileA sqExtent 100 < 0.00009 := by
  rw [worldFileA_sq]
  have hpi1 := Real.pi_gt_d6
  have hpi2 := Real.pi_lt_d2
  have hden : (0 : ℝ) < 6378137 * Real.pi := by positivity
  constructor
  · rw [lt_div_iff₀ hden]
    nlinarith
  · rw [div_lt_iff₀ hden]
    nlinarith

theorem wfd_neg : worldFileD sqExtent 100 < 0 := by
  unfold worldFileD
  rw [show sqExtent.maxY = 1000 from rfl, show sqExtent.minY = 0 from rfl]
  have h := latOf3857_lt (show (0 : ℝ) < 1000 by norm_num)
  have hpos : (0 : ℝ) < (latOf3857 1000 - latOf3857 0) / 100 :=
    div_pos (by linarith) (by norm_num)
  push_cast
  linarith

/-- C2 counterexample: for a 100×100 px raster over the 1000×1000 m extent
`sqExtent`, the world file's first value is about 0.0000898 (the per-pixel
longitude step in degrees) and its fourth value is a small negative number —
neither is within ±0.01 of ±10, because `startClipping` converts the extent
corners to EPSG:4326 and writes the transform in geographic degrees, not
metres. -/
theorem c2_worldfile_meters_counterexample :
    ¬ (|worldFileA sqExtent 100 - 10| ≤ 0.01 ∧
       |worldFileD sqExtent 100 - (-10)| ≤ 0.01) := by
  rintro ⟨h1, -⟩
  have hub : worldFileA sqExtent 100 < 0.00009 := wfa_bounds.2
  have hle := (abs_le.mp h1).1
  linarith

/-- C2 (amended): exporting a 100×100 px raster over a 1000×1000 m
display-CRS extent produces a world file whose first value is the per-pixel
longitude step in geographic degrees — between 0.000089 and 0.00009, i.e.
≈0.0000898, not +10 — and whose fourth value is the negated per-pixel
latitude step, which is negative (≈−0.00009, not −10): the file is written
in degrees of the geographic CRS, not in metres. -/
theorem c2_worldfile_degree_scales :
    0.000089 < worldFileA sqExtent 100 ∧ worldFileA sqExtent 100 < 0.00009 ∧
    worldFileD sqExtent 100 < 0 :=
  ⟨wfa_bounds.1, wfa_bounds.2, wfd_neg⟩

theorem baseName_rabat_eq :
    baseName "rabat" 100000 (33.5731 : ℚ) (-7.5898 : ℚ) 1 2026 =
      "rabat_1km_n33_w007_02.26_topoma" := by
  have h1 : (0 : ℚ) ≤ 33.5731 := by norm_num
  have h2 : ¬ (0 : ℚ) ≤ -7.5898 := by norm_num
  have hlat : ⌊|(33.5731 : ℚ)|⌋ = 33 := by norm_num [abs_of_nonneg]
  have hlng : ⌊|(-7.5898 : ℚ)|⌋ = 7 := by norm_num [abs_of_nonpos]
  simp only [baseName, coordStr, hlat, hlng, if_pos h1, if_neg h2]
  rfl

/-- C6 counterexample: the selection centered at lat 33.5731, lon −7.5898
with scale label "1 km", date 02.26 and slug "rabat" does NOT produce
`rabat_1km_n33_w008_02.26_topoma`: the floor of |−7.5898| is 7, so the code
produces `w007`, not the `w008` the claim states (the claim contradicts its
own floor rule). -/
theorem c6_basename_counterexample :
    baseName "rabat" 100000 (33.5731 : ℚ) (-7.5898 : ℚ) 1 2026 ≠
      "rabat_1km_n33_w008_02.26_topoma" := by
  rw [baseName_rabat_eq]
  decide

/-- C6 (amended): the same selection produces the base filename
`rabat_1km_n33_w007_02.26_topoma` — hemisphere letters lowercase, degrees
the floor of the absolute latitude/longitude (so 7, not 8), longitude
zero-padded to 3 digits. -/
theorem c6_basename_w007 :
    baseName "rabat" 100000 (33.5731 : ℚ) (-7.5898 : ℚ) 1 2026 =
      "rabat_1km_n33_w007_02.26_topoma" :=
  baseName_rabat_eq

/-- The four regional Lambert zone codes registered in
`src/unnamed/part_001` lines 13-22. -/
def regionalZones : List String :=
  ["EPSG:26191", "EPSG:26192", "EPSG:26194", "EPSG:26195"]

/-- C7: for a regional projected zone, `projectFromZone` returns no
coordinate exactly when the numeric transform fails (proj4 throws or yields
`NaN`, modelled by `T = none`) or the transformed point's geographic
longitude/latitude falls outside the validity envelope
`[20, 38]°N × [−19, 1]°`; and such a failure only skips the single offending
row of a tabular import — the batch result over the remaining rows is
unchanged (the import loop is a total fold, it never aborts). -/
theorem c7_projection_failure_semantics (T : ℚ × ℚ → Option (ℚ × ℚ))
    (x y : ℚ) (zone : String) (hz : zone ∈ regionalZones) :
    (projectFromZone T x y zone = none ↔
      T (x, y) = none ∨
        ∃ lng lat, T (x, y) = some (lng, lat) ∧
          ¬(20 ≤ lat ∧ lat ≤ 38 ∧ -19 ≤ lng ∧ lng ≤ 1)) ∧
    (∀ (rows : List Row) (r : Row), rowPoint T zone r = none →
      excelValidPoints T zone (r :: rows) = excelValidPoints T zone rows) := by
  have hz4 : zone ≠ "EPSG:4326" := by
    fin_cases hz <;> decide
  constructor
  · unfold projectFromZone
    rw [if_neg hz4]
    cases hT : T (x, y) with
    | none => simp
    | some p =>
      obtain ⟨lng, lat⟩ := p
      by_cases henv : 20 ≤ lat ∧ lat ≤ 38 ∧ -19 ≤ lng ∧ lng ≤ 1
      · simp [henv, hT]
      · refine iff_of_true ?_ (Or.inr ⟨lng, lat, rfl, henv⟩)
        show (if 20 ≤ lat ∧ lat ≤ 38 ∧ -19 ≤ lng ∧ lng ≤ 1 then
          some (lng, lat) else none) = none
        rw [if_neg henv]
  · intro rows r hr
    simp [excelValidPoints, List.filterMap_cons, hr]

/-- Witness for `c7_projection_failure_semantics`: a failing transform gives
no coordinate, and an offending (here column-less) row is skipped without
affecting the batch. -/
theorem c7_projection_failure_witness :
    projectFromZone (fun _ => none) 0 0 "EPSG:26191" = none ∧
    excelValidPoints (fun _ => none) "EPSG:26191" [[]] =
      excelValidPoints (fun _ => none) "EPSG:26191" [] :=
  ⟨((c7_projection_failure_semantics (fun _ => none) 0 0 "EPSG:26191"
      (by decide)).1).mpr (Or.inl rfl),
   (c7_projection_failure_semantics (fun _ => none) 0 0 "EPSG:26191"
      (by decide)).2 [] [] rfl⟩

/-- A spreadsheet row with numeric in-domain X/Y cells. -/
def goodRow (x y : ℚ) : Row := [("X", .num x), ("Y", .num y)]

/-- A spreadsheet row whose X cell is the non-numeric string "abc". -/
def badRow : Row := [("X", .str "abc"), ("Y", .num 5)]

/-- The 10-row import scenario: 8 rows with parsable in-domain coordinates,
2 rows with a non-numeric X value. -/
def c9Rows : List Row :=
  [goodRow 1 1, goodRow 2 2, badRow, goodRow 3 3, goodRow 7 33,
   badRow, goodRow 10 20, goodRow 0 0, goodRow 5 6, goodRow 100 50]

/-- C10: with zone code `EPSG:4326`, `projectFromZone` ignores the numeric
transform entirely — no reprojection or datum shift happens: for any
transform `T` it returns the input pair unchanged exactly when
`|y| ≤ 90` and `|x| ≤ 180`, and `none` for every input outside those
bounds. -/
theorem c10_epsg4326_identity (T : ℚ × ℚ → Option (ℚ × ℚ)) (x y : ℚ) :
    projectFromZone T x y "EPSG:4326" =
      if |y| ≤ 90 ∧ |x| ≤ 180 then some (x, y) else none := by
  simp [projectFromZone]

/-- C9: processing the 10-row table (2 rows with non-numeric X) loads
exactly the 8 points of the parsable rows; the unparsable rows are silently
skipped — the import is a total function, so no error is thrown. -/
theorem c9_excel_skips_bad_rows :
    (excelValidPoints (fun _ => none) "EPSG:4326" c9Rows).length = 8 ∧
    excelValidPoints (fun _ => none) "EPSG:4326" c9Rows =
      [((1, 1), none), ((2, 2), none), ((3, 3), none), ((7, 33), none),
       ((10, 20), none), ((0, 0), none), ((5, 6), none), ((100, 50), none)] := by
  constructor
  · decide
  · decide

theorem digitsFixed_length (k m : ℕ) : (digitsFixed k m).length = k := by
  simp [digitsFixed, String.length]

theorem digitChar_isDigit {d : ℕ} (hd : d < 10) : (Nat.digitChar d).isDigit = true := by
  interval_cases d <;> decide

theorem toFixedFrac_length (q : ℚ) : (toFixedFrac q).length = 14 := by
  rw [toFixedFrac]
  exact digitsFixed_length 14 _

theorem toFixedFrac_digits (q : ℚ) : ∀ c ∈ (toFixedFrac q).data, c.isDigit = true := by
  intro c hc
  have hd : (toFixedFrac q).data =
      (List.range 14).map
        (fun i => Nat.digitChar (toFixedNat q % 10 ^ 14 / 10 ^ (14 - 1 - i) % 10)) := rfl
  rw [hd] at hc
  obtain ⟨i, -, rfl⟩ := List.mem_map.mp hc
  exact digitChar_isDigit (Nat.mod_lt _ (by norm_num))

/-- C8: for every export, the world-file text is the six `toFixed(14)`
renderings joined one per line in the order x-scale, y-rotation, x-rotation,
y-scale, top-left-x, top-left-y; the two rotation lines are the literal zero
string; every line has the shape `intpart.fracpart` with `.` as decimal
separator and exactly 14 (hence at least 12) fraction digits; and the
y-scale value is negative for every export with a non-degenerate extent
(south edge strictly below north edge) and positive pixel height. -/
theorem c8_worldfile_format :
    (∀ a d e f : ℚ,
      tfwLines a d e f =
        [toFixed14 a, "0.00000000000000", "0.00000000000000", toFixed14 d,
         toFixed14 e, toFixed14 f] ∧
      (tfwLines a d e f).length = 6 ∧
      tfwContent a d e f = String.intercalate "\n" (tfwLines a d e f) ∧
      ∀ s ∈ tfwLines a d e f, ∃ ip fp, s = ip ++ "." ++ fp ∧ fp.length = 14 ∧
        12 ≤ fp.length ∧ ∀ c ∈ fp.data, c.isDigit = true) ∧
    (∀ (e4 : Extent4) (w hgt : ℕ), e4.minY < e4.maxY → 0 < hgt →
      worldFileValues e4 w hgt =
        [worldFileA e4 w, 0, 0, worldFileD e4 hgt, lonOf3857 e4.minX,
         latOf3857 e4.maxY] ∧
      worldFileD e4 hgt < 0) := by
  constructor
  · intro a d e f
    refine ⟨rfl, rfl, rfl, ?_⟩
    intro s hs
    have hfrac : ∀ q : ℚ, ∃ ip fp, toFixed14 q = ip ++ "." ++ fp ∧
        fp.length = 14 ∧ 12 ≤ fp.length ∧ ∀ c ∈ fp.data, c.isDigit = true := by
      intro q
      refine ⟨toFixedPre q, toFixedFrac q, rfl, toFixedFrac_length q, ?_,
        toFixedFrac_digits q⟩
      rw [toFixedFrac_length]
      norm_num
    have hzero : ∃ ip fp, "0.00000000000000" = ip ++ "." ++ fp ∧
        fp.length = 14 ∧ 12 ≤ fp.length ∧ ∀ c ∈ fp.data, c.isDigit = true := by
      exact ⟨"0", "00000000000000", by decide, by decide, by decide, by decide⟩
    simp only [tfwLines, List.mem_cons, List.not_mem_nil, or_false] at hs
    rcases hs with rfl | rfl | rfl | rfl | rfl | rfl
    · exact hfrac a
    · exact hzero
    · exact hzero
    · exact hfrac d
    · exact hfrac e
    · exact hfrac f
  · intro e4 w hgt hy hh
    refine ⟨rfl, ?_⟩
    unfold worldFileD
    have hlat := latOf3857_lt hy
    have hpos : (0 : ℝ) < (latOf3857 e4.maxY - latOf3857 e4.minY) / hgt :=
      div_pos (by linarith) (by exact_mod_cast hh)
    linarith

/-- Witness for `c8_worldfile_format` at concrete values and the concrete
1000×1000 m extent with height 100. -/
theorem c8_worldfile_format_witness :
    (tfwLines 1 2 3 4).length = 6 ∧ worldFileD sqExtent 100 < 0 :=
  ⟨(c8_worldfile_format.1 1 2 3 4).2.1,
   (c8_worldfile_format.2 sqExtent 100 100
      (show sqExtent.minY < sqExtent.maxY by norm_num [sqExtent])
      (by norm_num)).2⟩
